import Mathlib

/-!
Shallow embedding of the Moodle authentication-and-role-resolution client
(`src/common/auth.py`, class `MoodleAuth`) together with proofs about its
credential lifecycle, role resolution and parameter encoding.

The remote Moodle REST service is modelled as an oracle: a function from the
request (webservice function name plus encoded request parameters) to the
transport-level outcome observed by the client.  Each client operation is a
pure function from the current client state (and the oracle, and — where the
source reads `os.getenv` at call time — the process environment) to the
operation result, the successor state, and the list of HTTP requests issued.
-/

/-- JSON values, the shape of every Moodle API response body and of the
`params` dictionaries handed to `_call_api`.  Objects are association lists;
lookup takes the first binding, matching Python dictionaries (which cannot
carry duplicate keys). -/
inductive Json where
  | null
  | bool (b : Bool)
  | num (n : Int)
  | str (s : String)
  | arr (elems : List Json)
  | obj (fields : List (String × Json))

/-- First binding for a key in an association list of JSON object fields. -/
def lookupField : List (String × Json) → String → Option Json
  | [], _ => none
  | (k, v) :: rest, key => if k == key then some v else lookupField rest key

/-- Python `data.get(key)` / `data[key]`: field lookup on an object, `none`
on every other value. -/
def Json.get? : Json → String → Option Json
  | .obj fields, key => lookupField fields key
  | _, _ => none

/-- Python `key in data` for a dictionary (and `False` for non-dictionaries,
which is the only way the embedded code uses it). -/
def Json.hasKey (j : Json) (key : String) : Bool :=
  (j.get? key).isSome

/-- Python `isinstance(data, dict)`. -/
def Json.isDict : Json → Bool
  | .obj _ => true
  | _ => false

/-- Python `len(data.keys())` for a dictionary. -/
def Json.numKeys : Json → Nat
  | .obj fields => fields.length
  | _ => 0

/-- Python equality between an arbitrary value and a string literal, as in
`error_code == 'invalidtoken'`. -/
def jsonEqStr : Json → String → Bool
  | .str s, t => s == t
  | _, _ => false

/-- Python `str(value)` for the values the client ever renders into messages
or compares with `str(...) == str(...)`: identity on strings, decimal
rendering for numbers, Python spellings for `None`/booleans.  The client
never renders a list or dictionary into a message it later inspects, so
containers get a fixed placeholder. -/
def Json.render : Json → String
  | .null => "None"
  | .bool true => "True"
  | .bool false => "False"
  | .num n => toString n
  | .str s => s
  | .arr _ => "<list>"
  | .obj _ => "<dict>"

/-- Python truthiness of a JSON value (`if value:`). -/
def jsonTruthy : Json → Bool
  | .null => false
  | .bool b => b
  | .num n => !(n == 0)
  | .str s => !(s == "")
  | .arr elems => !elems.isEmpty
  | .obj fields => !fields.isEmpty

/-- Python truthiness of an optional JSON value (`if not self.user_id:`). -/
def optJsonTruthy : Option Json → Bool
  | none => false
  | some j => jsonTruthy j

/-- Python truthiness of an optional string (`if not self.token:`). -/
def strOptTruthy : Option String → Bool
  | none => false
  | some s => !(s == "")

/-- Process environment as the client reads it: `os.getenv("API_MOODLE_TOKEN")`
and `os.getenv("FORCE_TEACHER_ROLE", "")`, each `none` when the variable is
unset. -/
structure Env where
  api_moodle_token : Option String
  force_teacher_role : Option String

/-- Python `str.lower()` on the character content of a string (ASCII folding
is all `FORCE_TEACHER_ROLE` comparisons need). -/
def pyLower (s : String) : String :=
  ⟨s.data.map Char.toLower⟩

/-- Evaluation of `os.getenv("FORCE_TEACHER_ROLE", "").lower() == "true"`,
the expression the source evaluates both in `__init__` and again inside
`_get_user_role`. -/
def forceTeacherSwitch (env : Env) : Bool :=
  pyLower (env.force_teacher_role.getD "") == "true"

/-- Mutable state of a `MoodleAuth` instance: the fields assigned in
`__init__` and updated by the methods.  `user_id` and `username` hold the raw
JSON values the source stores (`none` models the Python `None` of an
unresolved field). -/
structure MoodleAuth where
  base_url : String
  token : Option String
  authenticated : Bool
  username : Option Json
  user_id : Option Json
  is_teacher : Bool

/-- Constructor `MoodleAuth.__init__`: take the token argument, fall back to
the `API_MOODLE_TOKEN` environment variable when the argument is `None`, and
seed `is_teacher` from the `FORCE_TEACHER_ROLE` switch. -/
def MoodleAuth.init (env : Env) (base_url : String) (token : Option String) :
    MoodleAuth :=
  let token1 := match token with
    | some t => some t
    | none => env.api_moodle_token
  { base_url := base_url, token := token1, authenticated := false,
    username := none, user_id := none, is_teacher := forceTeacherSwitch env }

/-- Transport-level outcome of one HTTP round trip as `_call_api` observes
it: a 2xx response whose body parses (`success (some body)`) or fails to
parse (`success none`), a non-2xx status raised by `raise_for_status`, a
timeout, a network error, or any other exception. -/
inductive HttpResult where
  | success (body : Option Json)
  | httpStatus (code : Nat) (text : String)
  | timeout
  | netError (msg : String)
  | exn (msg : String)

/-- One request issued by the client: the webservice function name and the
full encoded request-parameter list. -/
abbrev Request := String × List (String × Json)

/-- The remote Moodle service as a deterministic oracle from requests to
transport outcomes. -/
abbrev Remote := String → List (String × Json) → HttpResult

/-- Result of `_call_api`: Python `(True, data)` or `(False, message)`. -/
inductive CallResult where
  | ok (data : Json)
  | err (msg : String)

/-- Flattening of one list element under `key[i]`: a dictionary element
expands to `key[i][subkey]` bindings, any other element to a single
`key[i]` binding (the inner loop of the `params` processing in
`_call_api`). -/
def flattenItem (key : String) (i : Nat) : Json → List (String × Json)
  | .obj fields =>
      fields.map fun p =>
        (key ++ "[" ++ toString i ++ "][" ++ p.1 ++ "]", p.2)
  | item => [(key ++ "[" ++ toString i ++ "]", item)]

/-- Flattening of a list value with `enumerate`, starting at index `i`. -/
def flattenList (key : String) (i : Nat) : List Json → List (String × Json)
  | [] => []
  | item :: rest => flattenItem key i item ++ flattenList key (i + 1) rest

/-- The `processed_params` computation of `_call_api`: list values are
flattened into bracketed key paths, every other value is passed through
under its own key. -/
def flattenParams : List (String × Json) → List (String × Json)
  | [] => []
  | (key, .arr items) :: rest => flattenList key 0 items ++ flattenParams rest
  | (key, value) :: rest => (key, value) :: flattenParams rest

/-- The three fixed request parameters every call carries. -/
def baseRequestParams (tok function : String) : List (String × Json) :=
  [("wstoken", .str tok), ("wsfunction", .str function),
   ("moodlewsrestformat", .str "json")]

/-- Full encoded request-parameter list: the fixed parameters updated with
the flattened caller parameters. -/
def requestParamsFor (tok function : String)
    (params : List (String × Json)) : List (String × Json) :=
  baseRequestParams tok function ++ flattenParams params

/-- Method `_call_api`: fail fast when the token is `None`; otherwise encode
the parameters, issue the request, and interpret the outcome — the two
Moodle error-envelope shapes on a parsed dictionary body, the token-clearing
side effects for an `invalidtoken` exception envelope and for HTTP 401/403,
and the distinct transport failures.  Returns the call result, the successor
state, and the requests issued. -/
def MoodleAuth.call_api (st : MoodleAuth) (remote : Remote) (function : String)
    (params : List (String × Json)) : CallResult × MoodleAuth × List Request :=
  match st.token with
  | none => (.err "Токен не встановлено або невалідний.", st, [])
  | some tok =>
    let requestParams := requestParamsFor tok function params
    let req : Request := (function, requestParams)
    match remote function requestParams with
    | .success none =>
        (.err ("Помилка: API " ++ function ++ " повернуло невалідний JSON"),
         st, [req])
    | .success (some data) =>
        if data.hasKey "exception" then
          let error_msg := (data.get? "message").getD
            (.str "Невідома помилка Moodle API")
          let error_code := (data.get? "errorcode").getD (.str "unknown")
          let st1 := if jsonEqStr error_code "invalidtoken" then
              { st with token := none } else st
          (.err ("Помилка Moodle API (" ++ error_code.render ++ "): "
              ++ error_msg.render), st1, [req])
        else if data.hasKey "error" && data.hasKey "errorcode"
            && decide (data.numKeys ≤ 3) then
          let error_msg := (data.get? "error").getD .null
          let error_code := (data.get? "errorcode").getD .null
          (.err ("Помилка Moodle API (" ++ error_code.render ++ "): "
              ++ error_msg.render), st, [req])
        else
          (.ok data, st, [req])
    | .httpStatus code _text =>
        if code == 403 || code == 401 then
          (.err ("Помилка HTTP " ++ toString code
              ++ " (можливо, недійсний токен)"),
           { st with token := none }, [req])
        else
          (.err ("Помилка HTTP " ++ toString code ++ " при виклику API "
              ++ function), st, [req])
    | .timeout =>
        (.err ("Помилка: API " ++ function
            ++ " не відповіло вчасно (timeout)."), st, [req])
    | .netError m =>
        (.err ("Помилка мережі при виклику Moodle API " ++ function ++ ": "
            ++ m), st, [req])
    | .exn m =>
        (.err ("Непередбачена помилка при виклику Moodle API " ++ function
            ++ ": " ++ m), st, [req])

/-- Method `_get_user_info`: call the site-info probe; on a dictionary body
carrying `userid`, store the identity (and the username when present) and
succeed; otherwise fail with the distinguishing message. -/
def MoodleAuth.get_user_info (st : MoodleAuth) (remote : Remote) :
    (Bool × String) × MoodleAuth × List Request :=
  let (res, st1, tr) := st.call_api remote "core_webservice_get_site_info" []
  match res with
  | .ok data =>
      if data.isDict && data.hasKey "userid" then
        let st2 := { st1 with user_id := data.get? "userid" }
        let st3 := if data.hasKey "username" then
            { st2 with username := data.get? "username" } else st2
        ((true, "Інформація користувача (ID) отримана"), st3, tr)
      else
        ((false, "Не вдалося отримати userid з відповіді API"), st1, tr)
  | .err msg =>
      ((false, "Не вдалося викликати core_webservice_get_site_info: " ++ msg),
       st1, tr)

/-- Method `is_token_valid`: fail fast on a missing token, otherwise defer
to `_get_user_info` and wrap its message. -/
def MoodleAuth.is_token_valid (st : MoodleAuth) (remote : Remote) :
    (Bool × String) × MoodleAuth × List Request :=
  if !strOptTruthy st.token then
    ((false, "Токен відсутній"), st, [])
  else
    let ((success, msg), st1, tr) := st.get_user_info remote
    if success then ((true, "Токен дійсний"), st1, tr)
    else ((false, "Перевірка токена не вдалася: " ++ msg), st1, tr)

/-- The teacher-equivalent role-id test on the cheap pass:
`'roleid' in course and course['roleid'] in [3, 4]`. -/
def courseInlineTeacher (course : Json) : Bool :=
  course.hasKey "roleid" &&
    (match course.get? "roleid" with
     | some (.num n) => n == 3 || n == 4
     | _ => false)

/-- The teacher-equivalent role short-name test on the expensive pass:
`role.get('shortname') in ['editingteacher', 'teacher', 'coursecreator',
'manager']`. -/
def roleShortnameTeacher (role : Json) : Bool :=
  match role.get? "shortname" with
  | some (.str s) =>
      ["editingteacher", "teacher", "coursecreator", "manager"].contains s
  | _ => false

/-- One enrolled-user entry matches when its rendered id equals the rendered
client `user_id` and some entry of its `roles` list (default `[]`) carries a
teacher short name. -/
def userRolesTeacher (user_id_str : String) (user : Json) : Bool :=
  (((user.get? "id").getD .null).render == user_id_str) &&
    ((match user.get? "roles" with
      | some (.arr roles) => roles
      | _ => []).any roleShortnameTeacher)

/-- The list comprehension
`[course.get('id') for course in courses_data if course.get('id')]`. -/
def courseIdList (courses : List Json) : List Json :=
  (courses.map fun course => (course.get? "id").getD .null).filter jsonTruthy

/-- The expensive second pass of `_get_user_role`: for each course id fetch
the enrolled users and, when the call succeeds with a list, look for the
client user with a teacher-equivalent role short name; stop at the first
match.  State is threaded because `_call_api` can clear the token
mid-scan. -/
def expensiveScan (remote : Remote) (user_id_str : String) :
    MoodleAuth → List Json → Bool × MoodleAuth × List Request
  | st, [] => (false, st, [])
  | st, course_id :: rest =>
    let (res, st1, tr1) :=
      st.call_api remote "core_enrol_get_enrolled_users"
        [("courseid", course_id)]
    let found := match res with
      | .ok (.arr users) => users.any (userRolesTeacher user_id_str)
      | _ => false
    if found then (true, { st1 with is_teacher := true }, tr1)
    else
      let (b, st2, tr2) := expensiveScan remote user_id_str st1 rest
      (b, st2, tr1 ++ tr2)

/-- Method `_get_user_role`: fail when the identity is unresolved; otherwise
re-read the `FORCE_TEACHER_ROLE` switch and short-circuit to `true` when it
is set; otherwise fetch the enrolled courses (failure or a non-list body
fails the scan), run the cheap inline-roleid pass, then the expensive
per-course pass, and finally report success with the flag forced `false`
when no pass matched. -/
def MoodleAuth.get_user_role (st : MoodleAuth) (env : Env) (remote : Remote) :
    Bool × MoodleAuth × List Request :=
  if !optJsonTruthy st.user_id then (false, st, [])
  else if forceTeacherSwitch env then (true, { st with is_teacher := true }, [])
  else
    let (res, st1, tr1) :=
      st.call_api remote "core_enrol_get_users_courses"
        [("userid", st.user_id.getD .null)]
    match res with
    | .ok (.arr courses) =>
        if courses.any courseInlineTeacher then
          (true, { st1 with is_teacher := true }, tr1)
        else
          let (found, st2, tr2) :=
            expensiveScan remote ((st1.user_id.getD .null).render) st1
              (courseIdList courses)
          if found then (true, st2, tr1 ++ tr2)
          else (true, { st2 with is_teacher := false }, tr1 ++ tr2)
    | _ => (false, st1, tr1)

/-- The username refresh `self.username = site_info_data.get("username")`
performed by `authenticate_with_token` on a dictionary site-info body. -/
def usernameRefresh (st : MoodleAuth) (data : Json) : MoodleAuth :=
  { st with username := data.get? "username" }

/-- Method `authenticate_with_token`: fail fast without a token; validate the
token via `is_token_valid`, clearing the token on any validation failure;
resolve the identity when still unresolved (fatal on failure); refresh the
username from a direct site-info call (non-fatal, `TokenUser` fallback);
resolve the role (outcome ignored for success); then mark the client
authenticated and succeed. -/
def MoodleAuth.authenticate_with_token (st : MoodleAuth) (env : Env)
    (remote : Remote) : (Bool × String) × MoodleAuth × List Request :=
  if !strOptTruthy st.token then
    ((false,
      "Токен не надано (через аргумент або змінну оточення API_MOODLE_TOKEN)"),
     st, [])
  else
    let ((is_valid, msg), st1, tr1) := st.is_token_valid remote
    if !is_valid then
      ((false, "Наданий токен недійсний: " ++ msg),
       { st1 with token := none, authenticated := false }, tr1)
    else
      let (info_ok, info_msg, st2, tr2) :=
        if !optJsonTruthy st1.user_id then
          let ((ok, m), s2, t2) := st1.get_user_info remote
          (ok, m, s2, t2)
        else (true, "", st1, ([] : List Request))
      if !info_ok then
        ((false, "Не вдалося отримати User ID з валідним токеном: "
            ++ info_msg),
         { st2 with authenticated := false }, tr1 ++ tr2)
      else
        let (site_res, st3, tr3) :=
          st2.call_api remote "core_webservice_get_site_info" []
        let st4 := match site_res with
          | .ok data =>
              if data.isDict then usernameRefresh st3 data
              else { st3 with username := some (.str "TokenUser") }
          | .err _ => { st3 with username := some (.str "TokenUser") }
        let (_role_ok, st5, tr4) := st4.get_user_role env remote
        ((true, "Автентифікація за допомогою токена успішна"),
         { st5 with authenticated := true }, tr1 ++ tr2 ++ tr3 ++ tr4)

/-- The transport outcomes on which `_call_api` discards the stored token:
a parsed body that is an `exception` envelope whose `errorcode` equals
`invalidtoken`, and an HTTP 401/403 status.  This predicate characterizes
exactly the token-clearing branches of `_call_api`. -/
def clearsToken : HttpResult → Bool
  | .success (some data) =>
      data.hasKey "exception" &&
        jsonEqStr ((data.get? "errorcode").getD (.str "unknown")) "invalidtoken"
  | .httpStatus code _ => code == 403 || code == 401
  | _ => false

/-- State update performed by a successful `_get_user_info` on response body
`data`: store the identity and, when present, the username. -/
def siteInfoUpdate (st : MoodleAuth) (data : Json) : MoodleAuth :=
  let st2 := { st with user_id := data.get? "userid" }
  if data.hasKey "username" then { st2 with username := data.get? "username" }
  else st2

/-- The encoded request-parameter list of the site-info probe. -/
def siteInfoRequestParams (tok : String) : List (String × Json) :=
  requestParamsFor tok "core_webservice_get_site_info" []

/-- Associativity of string concatenation. -/
theorem strAppendAssoc (a b c : String) : a ++ b ++ c = a ++ (b ++ c) := by
  rcases a with ⟨la⟩; rcases b with ⟨lb⟩; rcases c with ⟨lc⟩
  exact congrArg String.mk (List.append_assoc la lb lc)

/-- Merging a closed prefix across an append: from `c1 ++ c2 = c3` conclude
`c1 ++ (c2 ++ s) = c3 ++ s`. -/
theorem prefix_shift (c1 c2 c3 s : String) (h : c1 ++ c2 = c3) :
    c1 ++ (c2 ++ s) = c3 ++ s := by
  rw [← strAppendAssoc, h]

/-- Method `_call_api` fails fast, touching neither the state nor the
network, when the token is absent. -/
theorem call_api_token_none (st : MoodleAuth) (remote : Remote) (f : String)
    (ps : List (String × Json)) (h : st.token = none) :
    st.call_api remote f ps =
      (.err "Токен не встановлено або невалідний.", st, []) := by
  unfold MoodleAuth.call_api
  rw [h]

/-- State characterization of `_call_api` with a token present: the state is
unchanged except that the token is cleared exactly when the remote outcome
satisfies `clearsToken`. -/
theorem call_api_state_eq (st : MoodleAuth) (remote : Remote) (f : String)
    (ps : List (String × Json)) (tok : String) (h : st.token = some tok) :
    (st.call_api remote f ps).2.1 =
      if clearsToken (remote f (requestParamsFor tok f ps)) then
        { st with token := none } else st := by
  unfold MoodleAuth.call_api
  rw [h]
  cases hr : remote f (requestParamsFor tok f ps) with
  | success body =>
    cases body with
    | none => simp only [hr, clearsToken]; rfl
    | some data =>
      simp only [hr, clearsToken]
      by_cases h1 : data.hasKey "exception"
      · by_cases h2 :
            jsonEqStr ((data.get? "errorcode").getD (.str "unknown"))
              "invalidtoken"
        · simp [h1, h2]
        · simp [h1, h2]
      · by_cases h2 : data.hasKey "error" && data.hasKey "errorcode"
            && decide (data.numKeys ≤ 3)
        · simp [h1, h2]
        · simp [h1, h2]
  | httpStatus code text =>
    simp only [hr, clearsToken]
    by_cases h1 : code == 403 || code == 401
    · simp [h1]
    · simp [h1]
  | timeout => simp only [hr, clearsToken]; rfl
  | netError m => simp only [hr, clearsToken]; rfl
  | exn m => simp only [hr, clearsToken]; rfl

/-- Method `_call_api` never changes the teacher flag. -/
theorem call_api_is_teacher (st : MoodleAuth) (remote : Remote) (f : String)
    (ps : List (String × Json)) :
    (st.call_api remote f ps).2.1.is_teacher = st.is_teacher := by
  cases h : st.token with
  | none => rw [call_api_token_none st remote f ps h]
  | some tok =>
    rw [call_api_state_eq st remote f ps tok h]
    split <;> rfl

/-- Full outcome of `_call_api` when the remote answers with a parsed body
that is neither error-envelope shape: the body is returned as-is, the state
is untouched, and exactly one request was issued. -/
theorem call_api_ok (st : MoodleAuth) (remote : Remote) (f : String)
    (ps : List (String × Json)) (tok : String) (data : Json)
    (h : st.token = some tok)
    (hr : remote f (requestParamsFor tok f ps) = .success (some data))
    (h1 : data.hasKey "exception" = false)
    (h2 : (data.hasKey "error" && data.hasKey "errorcode"
        && decide (data.numKeys ≤ 3)) = false) :
    st.call_api remote f ps = (.ok data, st, [(f, requestParamsFor tok f ps)]) := by
  unfold MoodleAuth.call_api
  rw [h]
  simp only [hr, h1, h2]
  rfl

/-- Full outcome of `_call_api` when the remote answers with an `exception`
envelope whose error code is `invalidtoken`: an error result carrying the
code and the server message, with the token cleared. -/
theorem call_api_invalidtoken (st : MoodleAuth) (remote : Remote) (f : String)
    (ps : List (String × Json)) (tok : String) (data : Json)
    (h : st.token = some tok)
    (hr : remote f (requestParamsFor tok f ps) = .success (some data))
    (h1 : data.hasKey "exception" = true)
    (h2 : data.get? "errorcode" = some (.str "invalidtoken")) :
    st.call_api remote f ps =
      (.err ("Помилка Moodle API (" ++ "invalidtoken" ++ "): "
          ++ ((data.get? "message").getD
              (.str "Невідома помилка Moodle API")).render),
       { st with token := none }, [(f, requestParamsFor tok f ps)]) := by
  unfold MoodleAuth.call_api
  rw [h]
  simp only [hr, h1, h2]
  simp [jsonEqStr, Json.render]

/-- The `siteInfoUpdate` state transform touches only `user_id` and
`username`. -/
theorem siteInfoUpdate_fields (st : MoodleAuth) (data : Json) :
    (siteInfoUpdate st data).token = st.token ∧
    (siteInfoUpdate st data).user_id = data.get? "userid" ∧
    (siteInfoUpdate st data).is_teacher = st.is_teacher ∧
    (siteInfoUpdate st data).authenticated = st.authenticated := by
  unfold siteInfoUpdate
  split <;> exact ⟨rfl, rfl, rfl, rfl⟩

/-- Full outcome of `_get_user_info` when the site-info probe answers with a
clean dictionary body carrying `userid`. -/
theorem get_user_info_ok (st : MoodleAuth) (remote : Remote) (tok : String)
    (data : Json) (h : st.token = some tok)
    (hr : remote "core_webservice_get_site_info" (siteInfoRequestParams tok)
        = .success (some data))
    (hd : data.isDict = true) (hu : data.hasKey "userid" = true)
    (he : data.hasKey "exception" = false)
    (hce : (data.hasKey "error" && data.hasKey "errorcode"
        && decide (data.numKeys ≤ 3)) = false) :
    st.get_user_info remote =
      ((true, "Інформація користувача (ID) отримана"), siteInfoUpdate st data,
       [("core_webservice_get_site_info", siteInfoRequestParams tok)]) := by
  unfold MoodleAuth.get_user_info
  rw [call_api_ok st remote _ [] tok data h hr he hce]
  simp only [hd, hu, Bool.and_self]
  rfl

/-- Outcome of `_get_user_info` when the underlying `_call_api` fails. -/
theorem get_user_info_err (st : MoodleAuth) (remote : Remote) (m : String)
    (st1 : MoodleAuth) (tr : List Request)
    (hc : st.call_api remote "core_webservice_get_site_info" []
        = (.err m, st1, tr)) :
    st.get_user_info remote =
      ((false, "Не вдалося викликати core_webservice_get_site_info: " ++ m),
       st1, tr) := by
  unfold MoodleAuth.get_user_info
  rw [hc]

/-- Outcome of `is_token_valid` when `_get_user_info` succeeds. -/
theorem is_token_valid_ok (st : MoodleAuth) (remote : Remote) (tok : String)
    (h : st.token = some tok) (h2 : (tok == "") = false)
    (msg : String) (st1 : MoodleAuth) (tr : List Request)
    (hg : st.get_user_info remote = ((true, msg), st1, tr)) :
    st.is_token_valid remote = ((true, "Токен дійсний"), st1, tr) := by
  unfold MoodleAuth.is_token_valid
  rw [h]
  simp only [strOptTruthy, h2, Bool.not_false, Bool.not_true, if_false]
  rw [hg]
  rfl

/-- Outcome of `is_token_valid` when `_get_user_info` fails. -/
theorem is_token_valid_err (st : MoodleAuth) (remote : Remote) (tok : String)
    (h : st.token = some tok) (h2 : (tok == "") = false)
    (msg : String) (st1 : MoodleAuth) (tr : List Request)
    (hg : st.get_user_info remote = ((false, msg), st1, tr)) :
    st.is_token_valid remote =
      ((false, "Перевірка токена не вдалася: " ++ msg), st1, tr) := by
  unfold MoodleAuth.is_token_valid
  rw [h]
  simp only [strOptTruthy, h2, Bool.not_false, Bool.not_true, if_false]
  rw [hg]
  rfl

/-- When no remote outcome carries an invalid-token signal, `_call_api`
leaves the client state untouched. -/
theorem call_api_preserve (st : MoodleAuth) (remote : Remote) (f : String)
    (ps : List (String × Json))
    (ha : ∀ g qs, clearsToken (remote g qs) = false) :
    (st.call_api remote f ps).2.1 = st := by
  cases h : st.token with
  | none => rw [call_api_token_none st remote f ps h]
  | some tok =>
    rw [call_api_state_eq st remote f ps tok h, ha]
    simp

/-- When no remote outcome carries an invalid-token signal, the expensive
scan changes at most the teacher flag. -/
theorem expensiveScan_state (remote : Remote) (u : String)
    (ha : ∀ g qs, clearsToken (remote g qs) = false) :
    ∀ (l : List Json) (st : MoodleAuth), ∃ b : Bool,
      (expensiveScan remote u st l).2.1 = { st with is_teacher := b } := by
  intro l
  induction l with
  | nil => intro st; exact ⟨st.is_teacher, rfl⟩
  | cons c rest ih =>
    intro st
    unfold expensiveScan
    rcases hc : st.call_api remote "core_enrol_get_enrolled_users"
        [("courseid", c)] with ⟨res, st1, tr1⟩
    have hst1 : st1 = st := by
      have hp := call_api_preserve st remote "core_enrol_get_enrolled_users"
        [("courseid", c)] ha
      rw [hc] at hp
      exact hp
    dsimp only
    rcases hes : expensiveScan remote u st1 rest with ⟨b2, st2, tr2⟩
    rcases ih st1 with ⟨b, hb⟩
    rw [hes] at hb
    dsimp only at hb
    split
    · exact ⟨true, by rw [hst1]⟩
    · exact ⟨b, by dsimp only; rw [hb, hst1]⟩

/-- When no remote outcome carries an invalid-token signal, `_get_user_role`
changes at most the teacher flag. -/
theorem get_user_role_state (st : MoodleAuth) (env : Env) (remote : Remote)
    (ha : ∀ g qs, clearsToken (remote g qs) = false) :
    ∃ b : Bool, (st.get_user_role env remote).2.1 =
      { st with is_teacher := b } := by
  unfold MoodleAuth.get_user_role
  by_cases h1 : optJsonTruthy st.user_id
  case neg =>
    simp only [h1, Bool.not_false, if_true]
    exact ⟨st.is_teacher, rfl⟩
  case pos =>
    simp only [h1, Bool.not_true, Bool.false_eq_true, if_false]
    by_cases h2 : forceTeacherSwitch env
    · simp only [h2, if_true]
      exact ⟨true, rfl⟩
    · simp only [h2, Bool.false_eq_true, if_false]
      rcases hc : st.call_api remote "core_enrol_get_users_courses"
          [("userid", st.user_id.getD .null)] with ⟨res, st1, tr1⟩
      have hst1 : st1 = st := by
        have hp := call_api_preserve st remote "core_enrol_get_users_courses"
          [("userid", st.user_id.getD .null)] ha
        rw [hc] at hp
        exact hp
      subst hst1
      dsimp only
      match res with
      | .err m => exact ⟨st1.is_teacher, rfl⟩
      | .ok .null => exact ⟨st1.is_teacher, rfl⟩
      | .ok (.bool b) => exact ⟨st1.is_teacher, rfl⟩
      | .ok (.num n) => exact ⟨st1.is_teacher, rfl⟩
      | .ok (.str s) => exact ⟨st1.is_teacher, rfl⟩
      | .ok (.obj fs) => exact ⟨st1.is_teacher, rfl⟩
      | .ok (.arr courses) =>
        dsimp only
        rcases hes : expensiveScan remote ((st1.user_id.getD .null).render) st1
            (courseIdList courses) with ⟨found, st2, tr2⟩
        rcases expensiveScan_state remote ((st1.user_id.getD .null).render) ha
            (courseIdList courses) st1 with ⟨b, hb⟩
        rw [hes] at hb
        dsimp only at hb
        split
        · exact ⟨true, rfl⟩
        · dsimp only
          split
          · exact ⟨b, hb⟩
          · exact ⟨false, by dsimp only; rw [hb]⟩

/-- The `usernameRefresh` transform touches only `username`. -/
theorem usernameRefresh_fields (st : MoodleAuth) (data : Json) :
    (usernameRefresh st data).token = st.token ∧
    (usernameRefresh st data).user_id = st.user_id ∧
    (usernameRefresh st data).is_teacher = st.is_teacher :=
  ⟨rfl, rfl, rfl⟩

theorem authenticate_ok_shape (st : MoodleAuth) (env : Env) (remote : Remote)
    (tok : String) (data : Json)
    (h : st.token = some tok) (h2 : (tok == "") = false)
    (hr : remote "core_webservice_get_site_info" (siteInfoRequestParams tok)
        = .success (some data))
    (hd : data.isDict = true) (hu : data.hasKey "userid" = true)
    (he : data.hasKey "exception" = false)
    (hce : (data.hasKey "error" && data.hasKey "errorcode"
        && decide (data.numKeys ≤ 3)) = false) :
    ∃ (st4 : MoodleAuth) (rb : Bool) (st5 : MoodleAuth) (tr : List Request),
      st4.token = st.token ∧ st4.user_id = data.get? "userid" ∧
      st4.get_user_role env remote = (rb, st5, tr) ∧
      (st.authenticate_with_token env remote).1 =
        (true, "Автентифікація за допомогою токена успішна") ∧
      (st.authenticate_with_token env remote).2.1 =
        { st5 with authenticated := true } := by
  have htok : strOptTruthy st.token = true := by
    rw [h]; simp [strOptTruthy, h2]
  obtain ⟨hsu_tok, hsu_uid, hsu_teach, hsu_auth⟩ := siteInfoUpdate_fields st data
  have hst1tok : (siteInfoUpdate st data).token = some tok := by rw [hsu_tok, h]
  have hgui : st.get_user_info remote =
      ((true, "Інформація користувача (ID) отримана"), siteInfoUpdate st data,
       [("core_webservice_get_site_info", siteInfoRequestParams tok)]) :=
    get_user_info_ok st remote tok data h hr hd hu he hce
  have hitv : st.is_token_valid remote =
      ((true, "Токен дійсний"), siteInfoUpdate st data,
       [("core_webservice_get_site_info", siteInfoRequestParams tok)]) :=
    is_token_valid_ok st remote tok h h2 _ _ _ hgui
  unfold MoodleAuth.authenticate_with_token
  rw [hitv]
  simp only [htok, Bool.not_true, Bool.false_eq_true, if_false]
  by_cases hut : optJsonTruthy (siteInfoUpdate st data).user_id
  · simp only [hut, Bool.not_true, Bool.false_eq_true, if_false]
    rw [call_api_ok (siteInfoUpdate st data) remote
      "core_webservice_get_site_info" [] tok data hst1tok hr he hce]
    dsimp only
    simp only [hd, if_true]
    rcases hgr : (usernameRefresh (siteInfoUpdate st data) data).get_user_role
        env remote with ⟨rb, st5, tr4⟩
    exact ⟨usernameRefresh (siteInfoUpdate st data) data,
      rb, st5, tr4, hsu_tok, hsu_uid, hgr, by trivial, by trivial⟩
  · simp only [Bool.not_eq_true] at hut
    simp only [hut, Bool.not_false, if_true]
    have hgui2 : (siteInfoUpdate st data).get_user_info remote =
        ((true, "Інформація користувача (ID) отримана"),
         siteInfoUpdate (siteInfoUpdate st data) data,
         [("core_webservice_get_site_info", siteInfoRequestParams tok)]) :=
      get_user_info_ok (siteInfoUpdate st data) remote tok data hst1tok hr hd
        hu he hce
    rw [hgui2]
    simp only [Bool.not_true, Bool.false_eq_true, if_false]
    obtain ⟨hsu2_tok, hsu2_uid, hsu2_teach, hsu2_auth⟩ :=
      siteInfoUpdate_fields (siteInfoUpdate st data) data
    have hst2tok : (siteInfoUpdate (siteInfoUpdate st data) data).token
        = some tok := by rw [hsu2_tok, hsu_tok, h]
    rw [call_api_ok (siteInfoUpdate (siteInfoUpdate st data) data) remote
      "core_webservice_get_site_info" [] tok data hst2tok hr he hce]
    dsimp only
    simp only [hd, if_true]
    rcases hgr : (usernameRefresh (siteInfoUpdate (siteInfoUpdate st data) data)
        data).get_user_role env remote with ⟨rb, st5, tr4⟩
    exact ⟨usernameRefresh (siteInfoUpdate (siteInfoUpdate st data) data) data,
      rb, st5, tr4, (usernameRefresh_fields _ _).1.trans
        (hsu2_tok.trans hsu_tok), hsu2_uid, hgr, by trivial, by trivial⟩

/-- Trace characterization of `_call_api` with a token present: exactly one
request is issued, to the named function with the encoded parameters. -/
theorem call_api_trace (st : MoodleAuth) (remote : Remote) (f : String)
    (ps : List (String × Json)) (tok : String) (h : st.token = some tok) :
    (st.call_api remote f ps).2.2 = [(f, requestParamsFor tok f ps)] := by
  unfold MoodleAuth.call_api
  rw [h]
  dsimp only
  cases hr : remote f (requestParamsFor tok f ps) with
  | success body =>
    cases body with
    | none => simp only [hr]
    | some data =>
      simp only [hr]
      split
      · split <;> rfl
      · split <;> rfl
  | httpStatus code text => simp only [hr]; split <;> rfl
  | timeout => simp only [hr]
  | netError m => simp only [hr]
  | exn m => simp only [hr]

/-- Shape of `authenticate_with_token` when the site-info probe answers with
an `invalidtoken` exception envelope: failure, token cleared, and the
wrapped error message. -/
theorem authenticate_reject_shape (st : MoodleAuth) (env : Env)
    (remote : Remote) (tok : String) (data : Json)
    (h : st.token = some tok) (h2 : (tok == "") = false)
    (hr : remote "core_webservice_get_site_info" (siteInfoRequestParams tok)
        = .success (some data))
    (he : data.hasKey "exception" = true)
    (hc : data.get? "errorcode" = some (.str "invalidtoken")) :
    st.authenticate_with_token env remote =
      ((false, "Наданий токен недійсний: " ++ ("Перевірка токена не вдалася: "
          ++ ("Не вдалося викликати core_webservice_get_site_info: "
          ++ ("Помилка Moodle API (" ++ "invalidtoken" ++ "): "
          ++ ((data.get? "message").getD
              (.str "Невідома помилка Moodle API")).render)))),
       { st with token := none, authenticated := false },
       [("core_webservice_get_site_info", siteInfoRequestParams tok)]) := by
  have htok : strOptTruthy st.token = true := by
    rw [h]; simp [strOptTruthy, h2]
  have hca : st.call_api remote "core_webservice_get_site_info" [] =
      (.err ("Помилка Moodle API (" ++ "invalidtoken" ++ "): "
          ++ ((data.get? "message").getD
              (.str "Невідома помилка Moodle API")).render),
       { st with token := none },
       [("core_webservice_get_site_info", siteInfoRequestParams tok)]) :=
    call_api_invalidtoken st remote "core_webservice_get_site_info" [] tok
      data h hr he hc
  have hgui := get_user_info_err st remote _ _ _ hca
  have hitv := is_token_valid_err st remote tok h h2 _ _ _ hgui
  unfold MoodleAuth.authenticate_with_token
  rw [hitv]
  simp only [htok, Bool.not_true, Bool.false_eq_true, if_false,
    Bool.not_false, if_true]

/-- Equation for `_get_user_role` when the identity is unresolved: immediate
failure, no state change, no request. -/
theorem get_user_role_no_user_id (st : MoodleAuth) (env : Env)
    (remote : Remote) (h : optJsonTruthy st.user_id = false) :
    st.get_user_role env remote = (false, st, []) := by
  unfold MoodleAuth.get_user_role
  simp only [h, Bool.not_false, if_true]

/-- Equation for `_get_user_role` when the identity is resolved and the
forced-override switch is set: immediate success, flag forced, no request. -/
theorem get_user_role_force (st : MoodleAuth) (env : Env) (remote : Remote)
    (h : optJsonTruthy st.user_id = true)
    (hf : forceTeacherSwitch env = true) :
    st.get_user_role env remote =
      (true, { st with is_teacher := true }, []) := by
  unfold MoodleAuth.get_user_role
  simp only [h, Bool.not_true, Bool.false_eq_true, if_false, hf, if_true]

/-- Equation for `_get_user_role` when the identity is resolved and the
switch is off: the enrolled-courses fetch and the two scanning passes. -/
theorem get_user_role_fetch (st : MoodleAuth) (env : Env) (remote : Remote)
    (h : optJsonTruthy st.user_id = true)
    (hf : forceTeacherSwitch env = false) :
    st.get_user_role env remote =
      (let (res, st1, tr1) :=
        st.call_api remote "core_enrol_get_users_courses"
          [("userid", st.user_id.getD .null)]
       match res with
       | .ok (.arr courses) =>
          if courses.any courseInlineTeacher then
            (true, { st1 with is_teacher := true }, tr1)
          else
            let (found, st2, tr2) :=
              expensiveScan remote ((st1.user_id.getD .null).render) st1
                (courseIdList courses)
            if found then (true, st2, tr1 ++ tr2)
            else (true, { st2 with is_teacher := false }, tr1 ++ tr2)
       | _ => (false, st1, tr1)) := by
  unfold MoodleAuth.get_user_role
  simp only [h, Bool.not_true, Bool.false_eq_true, if_false, hf]

/-- Environment with neither variable set. -/
def envNone : Env := { api_moodle_token := none, force_teacher_role := none }

/-- Environment with the forced-override switch active. -/
def envForce : Env :=
  { api_moodle_token := none, force_teacher_role := some "true" }

/-- Remote that always fails at the transport level (elapsed deadline). -/
def remoteTimeout : Remote := fun _ _ => .timeout

/-- Remote that always answers with the compact error envelope carrying the
invalid-token code. -/
def remoteInvalidCompact : Remote := fun _ _ =>
  .success (some (.obj [("error", .str "Invalid token"),
    ("errorcode", .str "invalidtoken")]))

/-- Remote that always answers with the `exception` envelope carrying the
invalid-token code. -/
def remoteInvalidEnvelope : Remote := fun _ _ =>
  .success (some (.obj [("exception", .str "moodle_exception"),
    ("errorcode", .str "invalidtoken"), ("message", .str "Invalid token")]))

/-- Freshly constructed client holding token `abc`. -/
def client0 : MoodleAuth :=
  MoodleAuth.init envNone "http://78.137.2.119:2929" (some "abc")

/-- Client whose identity is resolved (id 7) and whose role flag is false. -/
def clientResolved : MoodleAuth := { client0 with user_id := some (.num 7) }

/-- Client left by an earlier successful session: identity resolved, role
flag resolved to `true`. -/
def clientStale : MoodleAuth :=
  { client0 with
    user_id := some (.num 7)
    is_teacher := true
    authenticated := true }

/-- The spec scenario-B remote: site-info yields user 7, the enrolled-course
list carries no inline role id, and the enrolled-users listing gives user 7
only the `student` role. -/
def remoteScenarioB : Remote := fun f _ =>
  if f == "core_webservice_get_site_info" then
    .success (some (.obj [("userid", .num 7), ("username", .str "jdoe")]))
  else if f == "core_enrol_get_users_courses" then
    .success (some (.arr [.obj [("id", .num 1)]]))
  else if f == "core_enrol_get_enrolled_users" then
    .success (some (.arr [.obj [("id", .num 7),
      ("roles", .arr [.obj [("shortname", .str "student")]])]]))
  else .timeout

/-- C1 counterexample: on `clientStale` (teacher flag `true` from an earlier
resolution) a scan whose enrolled-courses fetch times out returns the
failure outcome, yet the teacher flag is still `true` when it returns. -/
theorem C1_counterexample :
    (clientStale.get_user_role envNone remoteTimeout).1 = false ∧
    (clientStale.get_user_role envNone remoteTimeout).2.1.is_teacher
      = true ∧
    clientStale.is_teacher = true :=
  ⟨rfl, rfl, rfl⟩

/-- C1 (amended): every failure outcome of the role-resolution scan leaves
the teacher flag unchanged — in particular a flag set `true` by an earlier
resolution survives a later failed scan; the flag is reset to `false` only
by a completed scan that found no match. -/
theorem C1_role_failure_leaves_flag (env : Env) (remote : Remote)
    (st : MoodleAuth) (hfail : (st.get_user_role env remote).1 = false) :
    (st.get_user_role env remote).2.1.is_teacher = st.is_teacher := by
  by_cases h1 : optJsonTruthy st.user_id
  case neg =>
    simp only [Bool.not_eq_true] at h1
    rw [get_user_role_no_user_id st env remote h1]
  case pos =>
    by_cases h2 : forceTeacherSwitch env
    · rw [get_user_role_force st env remote h1 h2] at hfail
      simp at hfail
    · simp only [Bool.not_eq_true] at h2
      rw [get_user_role_fetch st env remote h1 h2] at hfail ⊢
      rcases hc : st.call_api remote "core_enrol_get_users_courses"
          [("userid", st.user_id.getD .null)] with ⟨res, st1, tr1⟩
      have hteach : st1.is_teacher = st.is_teacher := by
        have hx := call_api_is_teacher st remote
          "core_enrol_get_users_courses" [("userid", st.user_id.getD .null)]
        rw [hc] at hx
        exact hx
      rw [hc] at hfail
      match res with
      | .err m => exact hteach
      | .ok .null => exact hteach
      | .ok (.bool b) => exact hteach
      | .ok (.num n) => exact hteach
      | .ok (.str s) => exact hteach
      | .ok (.obj fs) => exact hteach
      | .ok (.arr courses) =>
        exfalso
        dsimp only at hfail
        split at hfail
        · simp at hfail
        · split at hfail <;> simp at hfail

/-- C1 witness: the amended statement applied to the stale-flag client under
a timing-out remote, whose scan indeed reports failure. -/
theorem C1_witness :
    (clientStale.get_user_role envNone remoteTimeout).1 = false ∧
    (clientStale.get_user_role envNone remoteTimeout).2.1.is_teacher
      = clientStale.is_teacher :=
  ⟨rfl, C1_role_failure_leaves_flag envNone remoteTimeout clientStale rfl⟩

/-- C2 counterexample: a probe that fails at the transport level (timeout)
still causes `authenticate_with_token` to clear the stored credential, so
the credential is not preserved on a transport failure. -/
theorem C2_counterexample :
    client0.token = some "abc" ∧
    (client0.authenticate_with_token envNone remoteTimeout).1.1 = false ∧
    (client0.authenticate_with_token envNone remoteTimeout).2.1.token
      = none :=
  ⟨rfl, rfl, rfl⟩

/-- C2 (amended): within `_call_api` the credential is cleared exactly when
the remote outcome is an `exception` envelope with the invalid-token code or
an HTTP 401/403, and the state is otherwise untouched — transport and
timeout failures and all other responses preserve the credential.
`authenticate_with_token`, however, clears the credential on any failed
probe, including transport failures. -/
theorem C2_call_api_clears_iff_invalid (remote : Remote) (st : MoodleAuth)
    (f : String) (ps : List (String × Json)) (tok : String)
    (h : st.token = some tok) :
    (st.call_api remote f ps).2.1 =
      (if clearsToken (remote f (requestParamsFor tok f ps)) then
        { st with token := none } else st) :=
  call_api_state_eq st remote f ps tok h

/-- C2 witness: the amended statement applied to the fresh client under a
timing-out remote: `clearsToken` is false there, so the state (and hence
the credential) is preserved. -/
theorem C2_witness :
    clearsToken (remoteTimeout "f" (requestParamsFor "abc" "f" [])) = false ∧
    (client0.call_api remoteTimeout "f" []).2.1 =
      (if clearsToken (remoteTimeout "f" (requestParamsFor "abc" "f" [])) then
        { client0 with token := none } else client0) :=
  ⟨rfl, C2_call_api_clears_iff_invalid remoteTimeout client0 "f" [] "abc" rfl⟩

/-- C3 counterexample: a `call()` whose parsed body is the compact error
envelope carrying the invalid-token code reports failure but leaves the
credential in place, contradicting the claim that either known envelope
shape with that code empties the credential. -/
theorem C3_counterexample :
    (client0.call_api remoteInvalidCompact "f" []).1 =
      .err "Помилка Moodle API (invalidtoken): Invalid token" ∧
    (client0.call_api remoteInvalidCompact "f" []).2.1.token = some "abc" :=
  ⟨rfl, rfl⟩

/-- C3 (amended): a `call()` whose parsed body is the `exception` envelope
carrying the invalid-token code, or whose HTTP status is 401/403, leaves
the credential empty on return (the compact error envelope does not clear
it), and every subsequent `call()` on the instance fails with the
missing-token message without issuing any network request. -/
theorem C3_invalid_signal_clears_and_fails_fast (remote : Remote)
    (st : MoodleAuth) (f : String) (ps : List (String × Json)) (tok : String)
    (h : st.token = some tok)
    (hs : clearsToken (remote f (requestParamsFor tok f ps)) = true) :
    (st.call_api remote f ps).2.1.token = none ∧
    ∀ (remote2 : Remote) (f2 : String) (ps2 : List (String × Json)),
      ((st.call_api remote f ps).2.1).call_api remote2 f2 ps2 =
        (.err "Токен не встановлено або невалідний.",
         (st.call_api remote f ps).2.1, []) := by
  have hst := call_api_state_eq st remote f ps tok h
  rw [hs] at hst
  simp only [if_true] at hst
  refine ⟨by rw [hst], ?_⟩
  intro remote2 f2 ps2
  exact call_api_token_none _ remote2 f2 ps2 (by rw [hst])

/-- C3 witness: the amended statement applied to the fresh client under a
remote answering the `exception` invalid-token envelope; the credential is
empty afterwards and a subsequent call fails fast with no request. -/
theorem C3_witness :
    clearsToken (remoteInvalidEnvelope "g"
      (requestParamsFor "abc" "g" [])) = true ∧
    (client0.call_api remoteInvalidEnvelope "g" []).2.1.token = none ∧
    ((client0.call_api remoteInvalidEnvelope "g" []).2.1).call_api
        remoteTimeout "h" [] =
      (.err "Токен не встановлено або невалідний.",
       (client0.call_api remoteInvalidEnvelope "g" []).2.1, []) :=
  ⟨rfl,
   (C3_invalid_signal_clears_and_fails_fast remoteInvalidEnvelope client0
     "g" [] "abc" rfl rfl).1,
   (C3_invalid_signal_clears_and_fails_fast remoteInvalidEnvelope client0
     "g" [] "abc" rfl rfl).2 remoteTimeout "h" []⟩

/-- C4: if the remote accepts the credential (no invalid-token signal on any
call, and the site-info probe succeeds with a dictionary carrying the
identity), `authenticate_with_token` succeeds and the client ends
authenticated with credential retained and identity resolved; if the probe
instead answers an `exception` envelope with code `invalidtoken`, it fails
with a message containing `invalid`, the credential is cleared and the
client ends unauthenticated. -/
theorem C4_state_machine (env : Env) (remote : Remote) (st : MoodleAuth)
    (tok : String) (h : st.token = some tok) (h2 : (tok == "") = false) :
    (∀ data : Json,
      (∀ g qs, clearsToken (remote g qs) = false) →
      remote "core_webservice_get_site_info" (siteInfoRequestParams tok)
        = .success (some data) →
      data.isDict = true → data.hasKey "userid" = true →
      data.hasKey "exception" = false →
      (data.hasKey "error" && data.hasKey "errorcode"
        && decide (data.numKeys ≤ 3)) = false →
      (st.authenticate_with_token env remote).1.1 = true ∧
      (st.authenticate_with_token env remote).2.1.authenticated = true ∧
      (st.authenticate_with_token env remote).2.1.token = some tok ∧
      ((st.authenticate_with_token env remote).2.1.user_id).isSome = true) ∧
    (∀ data : Json,
      remote "core_webservice_get_site_info" (siteInfoRequestParams tok)
        = .success (some data) →
      data.hasKey "exception" = true →
      data.get? "errorcode" = some (.str "invalidtoken") →
      (st.authenticate_with_token env remote).1.1 = false ∧
      (st.authenticate_with_token env remote).2.1.token = none ∧
      (st.authenticate_with_token env remote).2.1.authenticated = false ∧
      ∃ p q : String, (st.authenticate_with_token env remote).1.2
        = p ++ ("invalid" ++ q)) := by
  constructor
  · intro data ha hr hd hu he hce
    obtain ⟨st4, rb, st5, tr, h4tok, h4uid, hgr, hres1, hres2⟩ :=
      authenticate_ok_shape st env remote tok data h h2 hr hd hu he hce
    obtain ⟨b, hb⟩ := get_user_role_state st4 env remote ha
    rw [hgr] at hb
    dsimp only at hb
    refine ⟨by rw [hres1], by rw [hres2], ?_, ?_⟩
    · rw [hres2]
      show st5.token = some tok
      rw [hb]
      show st4.token = some tok
      rw [h4tok, h]
    · rw [hres2]
      show st5.user_id.isSome = true
      rw [hb]
      show st4.user_id.isSome = true
      rw [h4uid]
      exact hu
  · intro data hr he hec
    rw [authenticate_reject_shape st env remote tok data h h2 hr he hec]
    refine ⟨rfl, rfl, rfl, ?_⟩
    set R := ((data.get? "message").getD
      (.str "Невідома помилка Moodle API")).render with hRdef
    refine ⟨"Наданий токен недійсний: Перевірка токена не вдалася: Не вдалося викликати core_webservice_get_site_info: Помилка Moodle API (",
      "token" ++ ("): " ++ R), ?_⟩
    rw [show "Помилка Moodle API (" ++ "invalidtoken" ++ "): " ++ R
      = "Помилка Moodle API (invalidtoken): " ++ R from rfl]
    rw [prefix_shift "Не вдалося викликати core_webservice_get_site_info: "
      "Помилка Moodle API (invalidtoken): "
      "Не вдалося викликати core_webservice_get_site_info: Помилка Moodle API (invalidtoken): "
      R rfl]
    rw [prefix_shift "Перевірка токена не вдалася: "
      "Не вдалося викликати core_webservice_get_site_info: Помилка Moodle API (invalidtoken): "
      "Перевірка токена не вдалася: Не вдалося викликати core_webservice_get_site_info: Помилка Moodle API (invalidtoken): "
      R rfl]
    rw [prefix_shift "Наданий токен недійсний: "
      "Перевірка токена не вдалася: Не вдалося викликати core_webservice_get_site_info: Помилка Moodle API (invalidtoken): "
      "Наданий токен недійсний: Перевірка токена не вдалася: Не вдалося викликати core_webservice_get_site_info: Помилка Moodle API (invalidtoken): "
      R rfl]
    rw [prefix_shift "token" "): " "token): " R rfl]
    rw [prefix_shift "invalid" "token): " "invalidtoken): " R rfl]
    rw [prefix_shift
      "Наданий токен недійсний: Перевірка токена не вдалася: Не вдалося викликати core_webservice_get_site_info: Помилка Moodle API ("
      "invalidtoken): "
      "Наданий токен недійсний: Перевірка токена не вдалася: Не вдалося викликати core_webservice_get_site_info: Помилка Moodle API (invalidtoken): "
      R rfl]

/-- C4 witness: accept branch at the scenario-B remote, reject branch at the
invalid-token remote, both from the fresh client. -/
theorem C4_witness :
    ((client0.authenticate_with_token envNone remoteScenarioB).1.1 = true ∧
     (client0.authenticate_with_token
        envNone remoteScenarioB).2.1.authenticated = true ∧
     (client0.authenticate_with_token envNone remoteScenarioB).2.1.token
        = some "abc" ∧
     ((client0.authenticate_with_token
        envNone remoteScenarioB).2.1.user_id).isSome = true) ∧
    ((client0.authenticate_with_token envNone remoteInvalidEnvelope).1.1
        = false ∧
     (client0.authenticate_with_token
        envNone remoteInvalidEnvelope).2.1.token = none ∧
     (client0.authenticate_with_token
        envNone remoteInvalidEnvelope).2.1.authenticated = false ∧
     ∃ p q : String,
       (client0.authenticate_with_token envNone remoteInvalidEnvelope).1.2
         = p ++ ("invalid" ++ q)) :=
  ⟨(C4_state_machine envNone remoteScenarioB client0 "abc" rfl rfl).1
      (.obj [("userid", .num 7), ("username", .str "jdoe")])
      (by
        intro g qs
        unfold remoteScenarioB
        repeat' split
        all_goals rfl)
      rfl rfl rfl rfl rfl,
   (C4_state_machine envNone remoteInvalidEnvelope client0 "abc" rfl rfl).2
      (.obj [("exception", .str "moodle_exception"),
        ("errorcode", .str "invalidtoken"), ("message", .str "Invalid token")])
      rfl rfl rfl⟩

/-- The spec scenario-A remote: site-info yields user 7 and the enrolled
course list carries an inline teacher role id (3). -/
def remoteScenarioA : Remote := fun f _ =>
  if f == "core_webservice_get_site_info" then
    .success (some (.obj [("userid", .num 7), ("username", .str "jdoe")]))
  else if f == "core_enrol_get_users_courses" then
    .success (some (.arr [.obj [("id", .num 1), ("roleid", .num 3)]]))
  else .timeout

/-- Environment carrying only a token value, with the switch unset. -/
def envTokenOnly : Env :=
  { api_moodle_token := some "zzz", force_teacher_role := none }

/-- C5: whenever the site-info probe succeeds with a dictionary carrying the
identity, `authenticate_with_token` succeeds with the success message and
ends authenticated — with no constraint at all on the remote behavior of the
role-resolution calls, so the outcome of the role scan cannot affect it. -/
theorem C5_success_regardless_of_role (env : Env) (remote : Remote)
    (st : MoodleAuth) (tok : String) (data : Json)
    (h : st.token = some tok) (h2 : (tok == "") = false)
    (hr : remote "core_webservice_get_site_info" (siteInfoRequestParams tok)
        = .success (some data))
    (hd : data.isDict = true) (hu : data.hasKey "userid" = true)
    (he : data.hasKey "exception" = false)
    (hce : (data.hasKey "error" && data.hasKey "errorcode"
        && decide (data.numKeys ≤ 3)) = false) :
    (st.authenticate_with_token env remote).1 =
      (true, "Автентифікація за допомогою токена успішна") ∧
    (st.authenticate_with_token env remote).2.1.authenticated = true := by
  obtain ⟨st4, rb, st5, tr, h4tok, h4uid, hgr, hres1, hres2⟩ :=
    authenticate_ok_shape st env remote tok data h h2 hr hd hu he hce
  exact ⟨hres1, by rw [hres2]⟩

/-- C5 witness: scenario B — the enrolled courses carry no inline role id
and the user holds only the `student` role, so the scan resolves the flag
to `false`, yet authentication succeeds. -/
theorem C5_witness :
    ((client0.authenticate_with_token envNone remoteScenarioB).1 =
      (true, "Автентифікація за допомогою токена успішна") ∧
     (client0.authenticate_with_token
        envNone remoteScenarioB).2.1.authenticated = true) ∧
    (client0.authenticate_with_token envNone remoteScenarioB).2.1.is_teacher
      = false :=
  ⟨C5_success_regardless_of_role envNone remoteScenarioB client0 "abc"
      (.obj [("userid", .num 7), ("username", .str "jdoe")])
      rfl rfl rfl rfl rfl rfl rfl,
   rfl⟩

/-- C6: when the enrolled-courses response is a list in which some course
carries an inline teacher role id, `_get_user_role` returns success with the
flag set, and the trace is exactly the single enrolled-courses request — no
enrolled-users request is ever issued and no further request follows the
match. -/
theorem C6_cheap_pass_short_circuit (env : Env) (remote : Remote)
    (st : MoodleAuth) (tok : String) (courses : List Json)
    (h : st.token = some tok)
    (hu : optJsonTruthy st.user_id = true)
    (hf : forceTeacherSwitch env = false)
    (hcr : remote "core_enrol_get_users_courses"
        (requestParamsFor tok "core_enrol_get_users_courses"
          [("userid", st.user_id.getD .null)])
      = .success (some (.arr courses)))
    (hm : courses.any courseInlineTeacher = true) :
    st.get_user_role env remote =
      (true, { st with is_teacher := true },
       [("core_enrol_get_users_courses",
         requestParamsFor tok "core_enrol_get_users_courses"
           [("userid", st.user_id.getD .null)])]) := by
  rw [get_user_role_fetch st env remote hu hf]
  rw [call_api_ok st remote "core_enrol_get_users_courses"
    [("userid", st.user_id.getD .null)] tok (.arr courses) h hcr rfl rfl]
  dsimp only
  simp only [hm, if_true]

/-- C6 witness: the short-circuit applied to the resolved client under the
scenario-A remote, whose course list carries role id 3. -/
theorem C6_witness :
    clientResolved.get_user_role envNone remoteScenarioA =
      (true, { clientResolved with is_teacher := true },
       [("core_enrol_get_users_courses",
         requestParamsFor "abc" "core_enrol_get_users_courses"
           [("userid", clientResolved.user_id.getD .null)])]) :=
  C6_cheap_pass_short_circuit envNone remoteScenarioA clientResolved "abc"
    [.obj [("id", .num 1), ("roleid", .num 3)]] rfl rfl rfl rfl rfl

/-- C7: with the identity resolved and the forced-override switch active,
`_get_user_role` reports success immediately with the flag forced `true` and
issues no request. -/
theorem C7_forced_override (env : Env) (remote : Remote) (st : MoodleAuth)
    (hu : optJsonTruthy st.user_id = true)
    (hf : forceTeacherSwitch env = true) :
    st.get_user_role env remote =
      (true, { st with is_teacher := true }, []) :=
  get_user_role_force st env remote hu hf

/-- C7 witness: the forced override applied to the resolved client under the
override environment; the remote is never consulted (empty trace). -/
theorem C7_witness :
    forceTeacherSwitch envForce = true ∧
    clientResolved.get_user_role envForce remoteTimeout =
      (true, { clientResolved with is_teacher := true }, []) :=
  ⟨rfl, C7_forced_override envForce remoteTimeout clientResolved rfl rfl⟩

/-- A non-dictionary list element flattens to its single bracketed
binding. -/
theorem flattenItem_scalar (key : String) (i : Nat) (item : Json)
    (h : item.isDict = false) :
    flattenItem key i item = [(key ++ "[" ++ toString i ++ "]", item)] := by
  cases item <;> first | rfl | simp [Json.isDict] at h

/-- Everything `flattenItem` produces for the element at position `j`
(counting from enumeration start `i`) appears in the flattened list. -/
theorem flattenList_mem (key : String) :
    ∀ (items : List Json) (i j : Nat) (hj : j < items.length)
      (x : String × Json),
      x ∈ flattenItem key (i + j) (items.get ⟨j, hj⟩) →
      x ∈ flattenList key i items := by
  intro items
  induction items with
  | nil => intro i j hj x hx; exact absurd hj (by simp)
  | cons a rest ih =>
    intro i j hj x hx
    show x ∈ flattenItem key i a ++ flattenList key (i + 1) rest
    cases j with
    | zero => exact List.mem_append_left _ hx
    | succ j2 =>
      have hj2 : j2 < rest.length := Nat.lt_of_succ_lt_succ hj
      have hx2 : x ∈ flattenItem key ((i + 1) + j2) (rest.get ⟨j2, hj2⟩) := by
        have hnum : i + (j2 + 1) = (i + 1) + j2 := by omega
        rw [← hnum]
        exact hx
      exact List.mem_append_right _ (ih (i + 1) j2 hj2 x hx2)

/-- C8: parameters are flattened into the bracketed key-path encoding before
the request is issued.  First, concretely: with `parameters =
values ↦ [10, 20]` the one request issued carries exactly the fixed
parameters plus `values[0] = 10` and `values[1] = 20` — no binding under the
bare key `values` and no nested array.  Second, in general: element `j` of a
list value under key `k` is encoded at `k[j]` when it is a scalar, and each
field `sk` of a dictionary element is encoded at `k[j][sk]`. -/
theorem C8_parameter_flattening (st : MoodleAuth) (remote : Remote)
    (f : String) (tok : String) (h : st.token = some tok) :
    (st.call_api remote f [("values", .arr [.num 10, .num 20])]).2.2 =
      [(f, [("wstoken", .str tok), ("wsfunction", .str f),
            ("moodlewsrestformat", .str "json"),
            ("values[0]", .num 10), ("values[1]", .num 20)])] ∧
    (∀ (key : String) (items : List Json) (j : Nat) (hj : j < items.length),
      (items.get ⟨j, hj⟩).isDict = false →
      (key ++ "[" ++ toString j ++ "]", items.get ⟨j, hj⟩)
        ∈ flattenList key 0 items) ∧
    (∀ (key : String) (items : List Json) (j : Nat) (hj : j < items.length)
       (fields : List (String × Json)) (sk : String) (sv : Json),
      items.get ⟨j, hj⟩ = .obj fields → (sk, sv) ∈ fields →
      (key ++ "[" ++ toString j ++ "][" ++ sk ++ "]", sv)
        ∈ flattenList key 0 items) := by
  refine ⟨?_, ?_, ?_⟩
  · rw [call_api_trace st remote f [("values", .arr [.num 10, .num 20])]
      tok h]
    rfl
  · intro key items j hj hscalar
    apply flattenList_mem key items 0 j hj
    rw [Nat.zero_add]
    rw [flattenItem_scalar key j _ hscalar]
    exact List.mem_singleton.mpr rfl
  · intro key items j hj fields sk sv hobj hmem
    apply flattenList_mem key items 0 j hj
    rw [Nat.zero_add, hobj]
    exact List.mem_map_of_mem _ hmem

/-- C8 witness: the trace equation applied to the fresh client, and the two
general encodings applied to the concrete lists `[10, 20]` and
`[{sub: 5}]`. -/
theorem C8_witness :
    (client0.call_api remoteTimeout "core_user_get_users_by_field"
        [("values", .arr [.num 10, .num 20])]).2.2 =
      [("core_user_get_users_by_field",
        [("wstoken", .str "abc"),
         ("wsfunction", .str "core_user_get_users_by_field"),
         ("moodlewsrestformat", .str "json"),
         ("values[0]", .num 10), ("values[1]", .num 20)])] ∧
    ("values[1]", Json.num 20) ∈ flattenList "values" 0 [.num 10, .num 20] ∧
    ("values[0][sub]", Json.num 5)
      ∈ flattenList "values" 0 [.obj [("sub", .num 5)]] :=
  ⟨(C8_parameter_flattening client0 remoteTimeout
      "core_user_get_users_by_field" "abc" rfl).1,
   (C8_parameter_flattening client0 remoteTimeout
      "core_user_get_users_by_field" "abc" rfl).2.1
      "values" [.num 10, .num 20] 1 (by decide) rfl,
   (C8_parameter_flattening client0 remoteTimeout
      "core_user_get_users_by_field" "abc" rfl).2.2
      "values" [.obj [("sub", .num 5)]] 0 (by decide)
      [("sub", .num 5)] "sub" (.num 5) rfl (by simp)⟩

/-- C9 counterexample: one client, identity resolved, constructed with the
switch unset; two `_get_user_role` runs under the same remote that differ
only in the environment switch value at invocation time produce different
outcomes and different flags — the switch is re-read inside
`_get_user_role`, not only at construction. -/
theorem C9_counterexample :
    (clientResolved.get_user_role envForce remoteTimeout).1 = true ∧
    (clientResolved.get_user_role envNone remoteTimeout).1 = false ∧
    (clientResolved.get_user_role envForce remoteTimeout).2.1.is_teacher
      = true ∧
    (clientResolved.get_user_role envNone remoteTimeout).2.1.is_teacher
      = false :=
  ⟨rfl, rfl, rfl, rfl⟩

/-- C9 (amended): the bearer token is read from the environment only at
construction (`_get_user_role` depends on the invocation environment solely
through the override switch, so environments agreeing on the switch give
identical runs), while the override switch is read at construction and again
by each `_get_user_role` invocation, whose outcome therefore follows the
invocation-time switch value. -/
theorem C9_env_reads (env1 env2 : Env) (remote : Remote) (st : MoodleAuth)
    (hsw : forceTeacherSwitch env1 = forceTeacherSwitch env2) :
    st.get_user_role env1 remote = st.get_user_role env2 remote ∧
    (∀ (env : Env) (burl t : String),
      (MoodleAuth.init env burl (some t)).token = some t) ∧
    (∀ (env : Env) (burl : String),
      (MoodleAuth.init env burl none).token = env.api_moodle_token) ∧
    (∀ (env : Env) (burl : String) (t : Option String),
      (MoodleAuth.init env burl t).is_teacher = forceTeacherSwitch env) := by
  refine ⟨?_, fun env burl t => rfl, fun env burl => rfl, ?_⟩
  · unfold MoodleAuth.get_user_role
    rw [hsw]
  · intro env burl t
    cases t <;> rfl

/-- C9 witness: two environments differing in their token value but agreeing
on the switch give identical role-resolution runs, and the construction
facts instantiated. -/
theorem C9_witness :
    clientResolved.get_user_role envNone remoteTimeout =
      clientResolved.get_user_role envTokenOnly remoteTimeout ∧
    (MoodleAuth.init envTokenOnly "u" none).token = some "zzz" ∧
    (MoodleAuth.init envForce "u" none).is_teacher = true :=
  ⟨(C9_env_reads envNone envTokenOnly remoteTimeout clientResolved rfl).1,
   ((C9_env_reads envNone envTokenOnly remoteTimeout clientResolved
      rfl).2.2.1 envTokenOnly "u").trans rfl,
   ((C9_env_reads envNone envTokenOnly remoteTimeout clientResolved
      rfl).2.2.2 envForce "u" none).trans rfl⟩

/-- C10: with the identity unresolved (Python-falsy `user_id`),
`_get_user_role` fails immediately, issues no request and leaves the whole
state — including the teacher flag — unchanged, for every environment, in
particular when the forced-override switch is active (the identity check
precedes the override check). -/
theorem C10_no_identity_fails_fast (env : Env) (remote : Remote)
    (st : MoodleAuth) (h : optJsonTruthy st.user_id = false) :
    st.get_user_role env remote = (false, st, []) :=
  get_user_role_no_user_id st env remote h

/-- C10 witness: the fresh client (identity unresolved) under the active
override switch still fails fast with no request and no state change. -/
theorem C10_witness :
    forceTeacherSwitch envForce = true ∧
    client0.get_user_role envForce remoteTimeout = (false, client0, []) :=
  ⟨rfl, C10_no_identity_fails_fast envForce remoteTimeout client0 rfl⟩
